import Mathlib

/-!
Shallow embedding of the DeniedBot emoji-moderation bot (`src/DeniedBot.py`)
and verification of its specification.

Modelling conventions:
* A Python `str` is a `List Char` (a list of Unicode scalar values); Python's
  substring test `p in t` is the executable function `occursIn p t`.
* The Python `set` `all_banned_emojis` is a `Finset Glyph`; `set.add` is
  `insert`, `set.discard` is `Finset.erase`, `set(a + b)` is `(a ++ b).toFinset`.
* The persisted file `banned_emojis.json` is a `FileState`: `none` when the
  file does not exist, `some (FileData.jsonList l)` when its content parses
  as a JSON array of strings, `some FileData.corrupt` when `json.load`
  raises `json.JSONDecodeError`.
* Discord I/O that can fail (message delete, channel send, DM send,
  reaction removal, file save) is modelled by explicit Bool success flags
  passed to the handler; the `try`/`except` structure of each handler is
  compiled into the corresponding case split.  Every handler is a total
  Lean function: the outcome type records which side effects happened and
  whether an error was caught and logged (`print`) or escaped the body.
-/

namespace DeniedBot

/-- A glyph (emoji / symbol sequence) or a message text: a Python `str`,
modelled as a list of Unicode scalar values. -/
abbrev Glyph := List Char

/-- Python's substring containment `p in t` for strings: true iff `p` occurs
contiguously inside `t` (always true for the empty `p`). -/
def occursIn (p t : List Char) : Bool :=
  p.isPrefixOf t ||
    match t with
    | [] => false
    | _ :: rest => occursIn p rest

/-- The built-in default denylist `DEFAULT_COUNTRY_FLAGS` of `DeniedBot.py`
(each flag is a pair of regional-indicator scalar values). -/
def DEFAULT_COUNTRY_FLAGS : List Glyph :=
  ["🇷🇺".toList, "🇺🇦".toList, "🇺🇸".toList, "🇬🇧".toList, "🇩🇪".toList,
   "🇫🇷".toList, "🇨🇳".toList, "🇯🇵".toList, "🇰🇷".toList, "🇮🇹".toList,
   "🇪🇸".toList, "🇨🇦".toList, "🇦🇺".toList, "🇧🇷".toList, "🇮🇳".toList,
   "🇵🇱".toList, "🇹🇷".toList, "🇸🇦".toList]

/-- Content of the persisted `banned_emojis.json` file: it parses with
`json.load` as a JSON array of strings, or it is UTF-8 text on which
`json.load` raises `json.JSONDecodeError`, or its bytes are not valid UTF-8,
so reading the file opened with `encoding='utf-8'` raises
`UnicodeDecodeError` — which is not a `json.JSONDecodeError` and therefore
is not caught in `load_banned_emojis`.  Such a file is reachable from the
program itself: `restore` writes arbitrary attachment bytes to the file.
(Valid JSON that is not an array of strings is not modelled; no code path
in the claims produces it.  Operating-system errors such as `OSError` from
`open` are outside the content model.) -/
inductive FileData
  | jsonList (emojis : List Glyph)
  | corrupt
  | notUtf8
deriving DecidableEq

/-- An exception that escapes `load_banned_emojis` (its `except` clause
catches only `json.JSONDecodeError`). -/
inductive UncaughtError
  | unicodeDecodeError
deriving DecidableEq

/-- State of the persisted file: `none` when `banned_emojis.json` does not
exist on disk. -/
abbrev FileState := Option FileData

/-- Result of `load_banned_emojis`: the returned list, plus whether the
corruption diagnostic (`print("Ошибка: Файл banned_emojis.json поврежден!")`)
was emitted. -/
structure LoadResult where
  emojis : List Glyph
  printedCorruption : Bool
deriving DecidableEq

/-- `EmojiModerator.load_banned_emojis` (lines 63-72): returns `[]` when the
file does not exist; catches `json.JSONDecodeError`, prints a diagnostic and
returns `[]`; returns the parsed list when the content is a JSON array.
When the file's bytes are not valid UTF-8, reading raises
`UnicodeDecodeError`, which the `except json.JSONDecodeError` clause does
not catch, so the exception escapes this boundary (`Except.error`). -/
def load_banned_emojis : FileState → Except UncaughtError LoadResult
  | none => Except.ok ⟨[], false⟩
  | some (FileData.jsonList l) => Except.ok ⟨l, false⟩
  | some FileData.corrupt => Except.ok ⟨[], true⟩
  | some FileData.notUtf8 => Except.error UncaughtError.unicodeDecodeError

/-- In-memory state of the `EmojiModerator` cog: the persisted custom list
`self.banned_emojis` (a Python `list`) and the cached effective set
`self.all_banned_emojis` (a Python `set`). -/
structure EmojiModerator where
  banned_emojis : List Glyph
  all_banned_emojis : Finset Glyph
deriving DecidableEq

/-- `EmojiModerator.__init__` (lines 58-61): load the custom list and build
`all_banned_emojis = set(DEFAULT_COUNTRY_FLAGS + self.banned_emojis)`.
When `load_banned_emojis` raises (non-UTF-8 file), the constructor — and
with it the startup — propagates that exception. -/
def EmojiModerator.init (file : FileState) : Except UncaughtError EmojiModerator :=
  match load_banned_emojis file with
  | Except.ok loaded =>
    Except.ok ⟨loaded.emojis, (DEFAULT_COUNTRY_FLAGS ++ loaded.emojis).toFinset⟩
  | Except.error e => Except.error e

/-- `EmojiModerator.contains_banned_emoji` (lines 79-81):
`any(emoji in text for emoji in self.all_banned_emojis)`.  A pure function
of the state and the text. -/
def contains_banned_emoji (self : EmojiModerator) (text : List Char) : Bool :=
  decide (∃ emoji ∈ self.all_banned_emojis, occursIn emoji text = true)

/-- The reply `ctx.send` sends in `add_emoji`. -/
inductive AddReply
  | alreadyPresent
  | added
deriving DecidableEq

/-- Outcome of one `add_emoji` invocation: resulting in-memory state,
resulting file state, the reply sent to the channel (`none` when the save
raised before the success embed was sent), and whether an exception escaped
the command body. -/
structure AddOutcome where
  state : EmojiModerator
  file : FileState
  reply : Option AddReply
  raised : Bool
deriving DecidableEq

/-- `EmojiModerator.add_emoji` (lines 122-139).  If the glyph is already in
the custom list, reply "уже в списке" and stop.  Otherwise append it to
`banned_emojis`, `add` it to `all_banned_emojis`, then save; the command has
no `try`/`except`, so a save failure propagates out after the in-memory
mutation, the file is left as it was, and no reply is sent by this code.
`saveOk` is the success flag of `save_banned_emojis` (lines 74-77). -/
def add_emoji (self : EmojiModerator) (file : FileState) (emoji : Glyph)
    (saveOk : Bool) : AddOutcome :=
  if emoji ∈ self.banned_emojis then
    ⟨self, file, some AddReply.alreadyPresent, false⟩
  else
    let state' : EmojiModerator :=
      ⟨self.banned_emojis ++ [emoji], insert emoji self.all_banned_emojis⟩
    if saveOk then
      ⟨state', some (FileData.jsonList state'.banned_emojis), some AddReply.added, false⟩
    else
      ⟨state', file, none, true⟩

/-- The reply `ctx.send` sends in `remove_emoji`. -/
inductive RemoveReply
  | notFound
  | removed
deriving DecidableEq

/-- Outcome of one `remove_emoji` invocation (same reading as `AddOutcome`). -/
structure RemoveOutcome where
  state : EmojiModerator
  file : FileState
  reply : Option RemoveReply
  raised : Bool
deriving DecidableEq

/-- `EmojiModerator.remove_emoji` (lines 141-158).  If the glyph is not in
the custom list, reply "не найден" and stop.  Otherwise `list.remove` it
(first occurrence), `set.discard` it from `all_banned_emojis`, then save;
as in `add_emoji` a save failure propagates after the in-memory mutation. -/
def remove_emoji (self : EmojiModerator) (file : FileState) (emoji : Glyph)
    (saveOk : Bool) : RemoveOutcome :=
  if emoji ∈ self.banned_emojis then
    let state' : EmojiModerator :=
      ⟨self.banned_emojis.erase emoji, self.all_banned_emojis.erase emoji⟩
    if saveOk then
      ⟨state', some (FileData.jsonList state'.banned_emojis), some RemoveReply.removed, false⟩
    else
      ⟨state', file, none, true⟩
  else
    ⟨self, file, some RemoveReply.notFound, false⟩

/-- A Discord attachment on the invoking message: its filename and the file
content it would write when downloaded with `attachment.save`. -/
structure Attachment where
  filename : List Char
  content : FileData
deriving DecidableEq

/-- The reply `ctx.send` sends in `restore`.  `errorReport` is the
"Ошибка при восстановлении" message of the outer `except Exception`
branch. -/
inductive RestoreReply
  | missingAttachment
  | wrongExtension
  | restored
  | errorReport
deriving DecidableEq

/-- Outcome of one `restore` invocation: resulting in-memory state, file
state, reply, and whether the corruption diagnostic was printed while
reloading. -/
structure RestoreOutcome where
  state : EmojiModerator
  file : FileState
  reply : RestoreReply
  printedCorruption : Bool
deriving DecidableEq

/-- `EmojiModerator.restore` (lines 203-232).  No attachment: error reply,
no mutation.  First attachment's filename does not end in `.json`: error
reply, no mutation.  Otherwise `attachment.save(BANNED_EMOJIS_FILE)`
overwrites the persisted file with the attachment's content, then the
custom list is reloaded from it and the effective set recomputed.  When
the reload raises (non-UTF-8 attachment bytes), the outer `except
Exception` catches it and sends the error report: the file has already
been overwritten but the in-memory state is left as it was.
(A download failure inside `attachment.save` would likewise be caught by
the outer `except` and reported; that path carries no claim and is not
modelled.) -/
def restore (self : EmojiModerator) (file : FileState)
    (attachments : List Attachment) : RestoreOutcome :=
  match attachments with
  | [] => ⟨self, file, RestoreReply.missingAttachment, false⟩
  | attachment :: _ =>
    if List.isSuffixOf ".json".toList attachment.filename then
      let file' : FileState := some attachment.content
      match load_banned_emojis file' with
      | Except.ok loaded =>
        ⟨⟨loaded.emojis, (DEFAULT_COUNTRY_FLAGS ++ loaded.emojis).toFinset⟩,
          file', RestoreReply.restored, loaded.printedCorruption⟩
      | Except.error _ =>
        ⟨self, file', RestoreReply.errorReport, false⟩
    else
      ⟨self, file, RestoreReply.wrongExtension, false⟩

/-- An inbound Discord message: whether `message.author.bot` holds, and
`message.content`. -/
structure Message where
  author_bot : Bool
  content : List Char
deriving DecidableEq

/-- Side effects of one `on_message` run: whether `message.delete()`
succeeded, and the `delete_after` interval of the warning embed when it was
sent. -/
structure MessageEffects where
  deleted : Bool
  warningDeleteAfter : Option Nat
deriving DecidableEq

/-- Outcome of one `on_message` run: effects plus whether the `except`
branch logged an error.  The handler is a total function: no exception
escapes it. -/
structure MessageOutcome where
  effects : MessageEffects
  loggedError : Bool
deriving DecidableEq

/-- `EmojiModerator.on_message` (lines 83-98).  Bot authors are ignored.  On
a banned match the handler tries to delete the message and send a warning
embed with `delete_after=10`; both sit in one `try`, so a delete failure
skips the warning, and any failure is caught and printed. -/
def on_message (self : EmojiModerator) (message : Message)
    (deleteOk sendOk : Bool) : MessageOutcome :=
  if message.author_bot then
    ⟨⟨false, none⟩, false⟩
  else if contains_banned_emoji self message.content then
    if deleteOk then
      if sendOk then ⟨⟨true, some 10⟩, false⟩
      else ⟨⟨true, none⟩, true⟩
    else ⟨⟨false, none⟩, true⟩
  else
    ⟨⟨false, none⟩, false⟩

/-- An inbound reaction event: `str(reaction.emoji)` and whether `user.bot`
holds. -/
structure ReactionEvent where
  emoji : Glyph
  user_bot : Bool
deriving DecidableEq

/-- Side effects of one `on_reaction_add` run: whether the reaction was
removed, whether the private DM was delivered, and the `delete_after`
interval of the public channel notice when it was posted instead. -/
structure ReactionEffects where
  reactionRemoved : Bool
  dmSent : Bool
  channelNoticeDeleteAfter : Option Nat
deriving DecidableEq

/-- Outcome of one `on_reaction_add` run (same reading as
`MessageOutcome`). -/
structure ReactionOutcome where
  effects : ReactionEffects
  loggedError : Bool
deriving DecidableEq

/-- `EmojiModerator.on_reaction_add` (lines 100-120).  Bot users are
ignored.  The reaction's glyph is tested by exact set membership.  On a
match the handler removes the single reaction; then an inner bare `except`
around `user.send` falls back to a public channel notice with
`delete_after=10`; the outer `except` catches and prints everything else. -/
def on_reaction_add (self : EmojiModerator) (event : ReactionEvent)
    (removeOk dmOk channelSendOk : Bool) : ReactionOutcome :=
  if event.user_bot then
    ⟨⟨false, false, none⟩, false⟩
  else if event.emoji ∈ self.all_banned_emojis then
    if removeOk then
      if dmOk then ⟨⟨true, true, none⟩, false⟩
      else if channelSendOk then ⟨⟨true, false, some 10⟩, false⟩
      else ⟨⟨true, false, none⟩, true⟩
    else ⟨⟨false, false, none⟩, true⟩
  else
    ⟨⟨false, false, none⟩, false⟩

/-! Concrete example values used by witness and counterexample theorems. -/

/-- The Russian-flag glyph, a member of `DEFAULT_COUNTRY_FLAGS`. -/
def ruFlag : Glyph := "🇷🇺".toList

/-- The Ukrainian-flag glyph, a member of `DEFAULT_COUNTRY_FLAGS`. -/
def uaFlag : Glyph := "🇺🇦".toList

/-- A custom glyph not among the defaults. -/
def devilGlyph : Glyph := "😈".toList

/-- The moderator state after a fresh start with no persisted file (a
state the constructor builds without raising). -/
def exState : EmojiModerator := (EmojiModerator.init none).toOption.getD ⟨[], ∅⟩

/-- A `.json`-named attachment whose bytes are not valid UTF-8. -/
def binaryAttachment : Attachment := ⟨"binary.json".toList, FileData.notUtf8⟩

/-- First `add_emoji` of the devil glyph on the fresh state. -/
def exAdd1 : AddOutcome := add_emoji exState none devilGlyph true

/-- Second `add_emoji` of the same glyph on the resulting state. -/
def exAdd2 : AddOutcome := add_emoji exAdd1.state exAdd1.file devilGlyph true

/-- `add_emoji` of the Russian flag (already a default) on the fresh state. -/
def exAddRu : AddOutcome := add_emoji exState none ruFlag true

/-- `remove_emoji` of the Russian flag right after `exAddRu`. -/
def exRemoveRu : RemoveOutcome := remove_emoji exAddRu.state exAddRu.file ruFlag true

/-- The state after adding the empty glyph on the fresh state. -/
def emptyGlyphState : EmojiModerator := (add_emoji exState none [] true).state

/-- A `.json`-named attachment whose content is not valid JSON. -/
def corruptAttachment : Attachment := ⟨"bad.json".toList, FileData.corrupt⟩

/-- An attachment whose filename does not end in `.json`. -/
def txtAttachment : Attachment := ⟨"evil.txt".toList, FileData.jsonList []⟩

/-- Two attachments, both with `.json` filenames. -/
def twoJsonAttachments : List Attachment :=
  [⟨"first.json".toList, FileData.jsonList [devilGlyph]⟩,
   ⟨"second.json".toList, FileData.jsonList []⟩]

/-- A non-bot message whose text contains a default banned flag. -/
def exBannedMessage : Message := ⟨false, "hi 🇷🇺 yo".toList⟩

/-- `occursIn` decides Python's substring containment: `occursIn p t` is
true exactly when `p` is a contiguous infix of `t`. -/
theorem occursIn_iff (p t : List Char) : occursIn p t = true ↔ p <:+: t := by
  induction t with
  | nil =>
    simp [occursIn, List.isPrefixOf_iff_prefix, List.infix_nil, List.prefix_nil]
  | cons c rest ih =>
    rw [occursIn]
    simp [ List.isPrefixOf_iff_prefix, List.infix_cons_iff, ih]

/-- C1: the claimed invariant `all_banned_emojis = set(DEFAULT_COUNTRY_FLAGS
+ banned_emojis)` after every admin operation is violated by the code: on a
fresh state, `add_emoji 🇷🇺` followed by `remove_emoji 🇷🇺` reports success,
leaves the custom list empty, but `set.discard` has removed 🇷🇺 from the
cached effective set even though 🇷🇺 is a built-in default — so the
effective set no longer equals defaults ∪ custom. -/
theorem remove_emoji_drops_default_from_effective :
    exAddRu.reply = some AddReply.added ∧
    exRemoveRu.reply = some RemoveReply.removed ∧
    exRemoveRu.state.banned_emojis = [] ∧
    ruFlag ∈ DEFAULT_COUNTRY_FLAGS ∧
    ruFlag ∉ exRemoveRu.state.all_banned_emojis ∧
    exRemoveRu.state.all_banned_emojis ≠
      (DEFAULT_COUNTRY_FLAGS ++ exRemoveRu.state.banned_emojis).toFinset := by
  decide

/-- C2: `contains_banned_emoji` returns true iff some glyph of the effective
set occurs as an exact contiguous substring of the text, and returns false
whenever the effective set is empty.  It is a pure function of the state and
the text (it is a Lean function), so near-matches — e.g. a banned glyph
extended by a variation selector when only the extended form is absent from
the set — yield false by the right-to-left direction of the equivalence. -/
theorem contains_banned_emoji_iff (self : EmojiModerator) (text : List Char) :
    (contains_banned_emoji self text = true ↔
      ∃ emoji ∈ self.all_banned_emojis, emoji <:+: text) ∧
    (self.all_banned_emojis = ∅ → contains_banned_emoji self text = false) := by
  constructor
  · rw [contains_banned_emoji, decide_eq_true_eq]
    constructor
    · rintro ⟨e, he, hs⟩
      exact ⟨e, he, (occursIn_iff e text).mp hs⟩
    · rintro ⟨e, he, hs⟩
      exact ⟨e, he, (occursIn_iff e text).mpr hs⟩
  · intro h
    rw [contains_banned_emoji]
    simp [h]

/-- Witness for C2: on a state whose effective set is empty the scanner
returns false for a concrete text. -/
theorem contains_banned_emoji_iff_witness :
    contains_banned_emoji ⟨[], ∅⟩ "abc".toList = false :=
  (contains_banned_emoji_iff ⟨[], ∅⟩ "abc".toList).2 rfl

/-- Counterexample for C4: `load_banned_emojis` does not hold the boundary
in all cases.  On a file whose bytes are not valid UTF-8 the
`UnicodeDecodeError` escapes (only `json.JSONDecodeError` is caught), it
does not return the empty list, and the raising file state is reachable
from the program itself: `restore` with a binary `.json` attachment
overwrites the persisted file with exactly that content, after which the
next startup's constructor propagates the exception. -/
theorem load_banned_emojis_raises_on_invalid_utf8 :
    load_banned_emojis (some FileData.notUtf8) =
      Except.error UncaughtError.unicodeDecodeError ∧
    (∀ r : LoadResult, load_banned_emojis (some FileData.notUtf8) ≠ Except.ok r) ∧
    (restore exState none [binaryAttachment]).file = some FileData.notUtf8 ∧
    EmojiModerator.init (some FileData.notUtf8) =
      Except.error UncaughtError.unicodeDecodeError := by
  refine ⟨rfl, ?_, by decide, rfl⟩
  intro r h
  exact Except.noConfusion h

/-- C4 (amended): `load_banned_emojis` returns the empty list when the
persisted file does not exist, and returns the empty list while printing
the corruption diagnostic when the content is UTF-8 text that is not valid
JSON (`json.JSONDecodeError` is caught); but only that exception is caught:
when the file's bytes are not valid UTF-8, the `UnicodeDecodeError` raises
past this boundary. -/
theorem load_banned_emojis_boundary :
    load_banned_emojis none = Except.ok ⟨[], false⟩ ∧
    load_banned_emojis (some FileData.corrupt) = Except.ok ⟨[], true⟩ ∧
    (∀ l : List Glyph,
      load_banned_emojis (some (FileData.jsonList l)) = Except.ok ⟨l, false⟩) ∧
    load_banned_emojis (some FileData.notUtf8) =
      Except.error UncaughtError.unicodeDecodeError :=
  ⟨rfl, rfl, fun _ => rfl, rfl⟩

/-- C3: `add_emoji` is idempotent in effect.  For a glyph not yet in the
custom list, the first invocation replies "added" and persists the list
with the glyph appended; the second invocation replies "already present",
changes neither the state nor the file, and the custom list holds exactly
one instance of the glyph. -/
theorem add_emoji_idempotent (self : EmojiModerator) (file : FileState) (emoji : Glyph)
    (h : emoji ∉ self.banned_emojis)
    (o1 : AddOutcome) (h1 : o1 = add_emoji self file emoji true)
    (o2 : AddOutcome) (h2 : o2 = add_emoji o1.state o1.file emoji true) :
    o1.reply = some AddReply.added ∧
    o1.file = some (FileData.jsonList (self.banned_emojis ++ [emoji])) ∧
    o2.reply = some AddReply.alreadyPresent ∧
    o2.state = o1.state ∧
    o2.file = o1.file ∧
    o2.state.banned_emojis.count emoji = 1 := by
  subst h1
  have hmem : emoji ∈ self.banned_emojis ++ [emoji] := by simp
  subst h2
  simp [add_emoji, h, hmem, List.count_append, List.count_eq_zero.mpr h]

/-- Witness for C3 on a fresh state with the 😈 glyph. -/
theorem add_emoji_idempotent_witness :
    exAdd1.reply = some AddReply.added ∧
    exAdd1.file = some (FileData.jsonList (exState.banned_emojis ++ [devilGlyph])) ∧
    exAdd2.reply = some AddReply.alreadyPresent ∧
    exAdd2.state = exAdd1.state ∧
    exAdd2.file = exAdd1.file ∧
    exAdd2.state.banned_emojis.count devilGlyph = 1 :=
  add_emoji_idempotent exState none devilGlyph (by decide) exAdd1 rfl exAdd2 rfl

/-- Counterexample for C5: `restore` does not require exactly one attached
file.  With two `.json` attachments on the invoking message it proceeds
using the first one, replies success, and mutates both the persisted file
and the in-memory state. -/
theorem restore_two_attachments_succeeds :
    twoJsonAttachments.length = 2 ∧
    (restore exState none twoJsonAttachments).reply = RestoreReply.restored ∧
    (restore exState none twoJsonAttachments).state.banned_emojis = [devilGlyph] ∧
    (restore exState none twoJsonAttachments).file =
      some (FileData.jsonList [devilGlyph]) := by
  decide

/-- C5 (amended): `restore` requires at least one attached file and
considers only the first; when the invoking message has no attachment, or
the first attachment's filename does not end in `.json`, it reports a
visible failure and neither the persisted file nor the in-memory state is
mutated. -/
theorem restore_validation (self : EmojiModerator) (file : FileState)
    (attachments : List Attachment) :
    (attachments = [] →
      restore self file attachments =
        ⟨self, file, RestoreReply.missingAttachment, false⟩) ∧
    (∀ a rest, attachments = a :: rest →
      List.isSuffixOf ".json".toList a.filename = false →
      restore self file attachments =
        ⟨self, file, RestoreReply.wrongExtension, false⟩) := by
  constructor
  · intro h
    subst h
    rfl
  · intro a rest h hext
    subst h
    simp only [ List.isSuffixOf_iff_suffix, Bool.eq_false_iff, ne_eq,
      decide_eq_true_eq] at hext
    have hext' : ¬ ['.', 'j', 's', 'o', 'n'] <:+ a.filename := by
      simpa using hext
    simp [restore, hext']

/-- Witness for C5 (amended): restore with no attachment, and restore with
a `.txt` attachment, both leave a fresh state and absent file untouched. -/
theorem restore_validation_witness :
    restore exState none [] = ⟨exState, none, RestoreReply.missingAttachment, false⟩ ∧
    restore exState none [txtAttachment] =
      ⟨exState, none, RestoreReply.wrongExtension, false⟩ :=
  ⟨(restore_validation exState none []).1 rfl,
   (restore_validation exState none [txtAttachment]).2 txtAttachment [] rfl (by decide)⟩

/-- Counterexample for C8: a save failure during `add_emoji` does not leave
the prior state unchanged.  On a fresh state, adding 😈 with a failing save
raises out of the command body, sends no user-visible reply, yet the
in-memory custom list has already been mutated from `[]` to `[😈]`. -/
theorem add_emoji_save_failure_mutates :
    exState.banned_emojis = [] ∧
    (add_emoji exState none devilGlyph false).raised = true ∧
    (add_emoji exState none devilGlyph false).reply = none ∧
    (add_emoji exState none devilGlyph false).state.banned_emojis = [devilGlyph] ∧
    devilGlyph ∈ (add_emoji exState none devilGlyph false).state.all_banned_emojis := by
  decide

/-- C8 (amended): when persisting fails during `add_emoji` or
`remove_emoji`, the exception propagates out of the command body (these
commands have no `try`/`except`, so no user-visible failure message is sent
by this code), the persisted file is left as it was, but the in-memory
custom list and effective set retain the mutation applied before the save
attempt — they are not rolled back to the prior state. -/
theorem save_failure_mutation_persists (self : EmojiModerator) (file : FileState)
    (emoji : Glyph) :
    (emoji ∉ self.banned_emojis →
      add_emoji self file emoji false =
        ⟨⟨self.banned_emojis ++ [emoji], insert emoji self.all_banned_emojis⟩,
          file, none, true⟩) ∧
    (emoji ∈ self.banned_emojis →
      remove_emoji self file emoji false =
        ⟨⟨self.banned_emojis.erase emoji, self.all_banned_emojis.erase emoji⟩,
          file, none, true⟩) := by
  constructor
  · intro h
    simp [add_emoji, h]
  · intro h
    simp [remove_emoji, h]

/-- Witness for C8 (amended): the failing-save add and remove on concrete
states, with both hypotheses discharged. -/
theorem save_failure_mutation_persists_witness :
    add_emoji exState none devilGlyph false =
      ⟨⟨exState.banned_emojis ++ [devilGlyph], insert devilGlyph exState.all_banned_emojis⟩,
        none, none, true⟩ ∧
    remove_emoji exAdd1.state exAdd1.file devilGlyph false =
      ⟨⟨exAdd1.state.banned_emojis.erase devilGlyph,
          exAdd1.state.all_banned_emojis.erase devilGlyph⟩,
        exAdd1.file, none, true⟩ :=
  ⟨(save_failure_mutation_persists exState none devilGlyph).1 (by decide),
   (save_failure_mutation_persists exAdd1.state exAdd1.file devilGlyph).2 (by decide)⟩

/-- C6: `on_message` ignores bot authors entirely; for a non-bot author it
acts only when the text contains a banned glyph, in which case it deletes
the message and sends a warning auto-expiring after 10 seconds; when the
delete or the send fails the error is caught and logged, and the handler
(a total function) returns normally without crashing the listener. -/
theorem on_message_spec (self : EmojiModerator) (message : Message)
    (deleteOk sendOk : Bool) :
    (message.author_bot = true →
      on_message self message deleteOk sendOk = ⟨⟨false, none⟩, false⟩) ∧
    (message.author_bot = false →
      contains_banned_emoji self message.content = false →
      on_message self message deleteOk sendOk = ⟨⟨false, none⟩, false⟩) ∧
    (message.author_bot = false →
      contains_banned_emoji self message.content = true →
      deleteOk = true → sendOk = true →
      on_message self message deleteOk sendOk = ⟨⟨true, some 10⟩, false⟩) ∧
    (message.author_bot = false →
      contains_banned_emoji self message.content = true →
      (deleteOk = false ∨ sendOk = false) →
      (on_message self message deleteOk sendOk).loggedError = true) := by
  refine ⟨?_, ?_, ?_, ?_⟩
  · intro hbot
    simp [on_message, hbot]
  · intro hbot hscan
    simp [on_message, hbot, hscan]
  · intro hbot hscan hdel hsend
    simp [on_message, hbot, hscan, hdel, hsend]
  · intro hbot hscan hfail
    rcases hfail with hdel | hsend
    · simp [on_message, hbot, hscan, hdel]
    · cases deleteOk <;> simp [on_message, hbot, hscan, hsend]

/-- Witness for C6: a non-bot message containing the default 🇷🇺 flag is
deleted and warned with a 10-second expiry when both platform calls
succeed. -/
theorem on_message_spec_witness :
    on_message exState exBannedMessage true true = ⟨⟨true, some 10⟩, false⟩ :=
  (on_message_spec exState exBannedMessage true true).2.2.1 rfl (by decide) rfl rfl

/-- C7: `on_reaction_add` ignores bot users; for a non-bot user it acts only
when the reaction's glyph is an exact member of the effective set, removing
that single reaction and sending a private DM; when the DM fails it posts a
public channel notice auto-expiring after 10 seconds instead; any remaining
failure is caught and logged, and the handler (a total function) returns
normally. -/
theorem on_reaction_add_spec (self : EmojiModerator) (event : ReactionEvent)
    (removeOk dmOk channelSendOk : Bool) :
    (event.user_bot = true →
      on_reaction_add self event removeOk dmOk channelSendOk =
        ⟨⟨false, false, none⟩, false⟩) ∧
    (event.user_bot = false →
      event.emoji ∉ self.all_banned_emojis →
      on_reaction_add self event removeOk dmOk channelSendOk =
        ⟨⟨false, false, none⟩, false⟩) ∧
    (event.user_bot = false →
      event.emoji ∈ self.all_banned_emojis →
      removeOk = true → dmOk = true →
      on_reaction_add self event removeOk dmOk channelSendOk =
        ⟨⟨true, true, none⟩, false⟩) ∧
    (event.user_bot = false →
      event.emoji ∈ self.all_banned_emojis →
      removeOk = true → dmOk = false → channelSendOk = true →
      on_reaction_add self event removeOk dmOk channelSendOk =
        ⟨⟨true, false, some 10⟩, false⟩) ∧
    (event.user_bot = false →
      event.emoji ∈ self.all_banned_emojis →
      (removeOk = false ∨ (dmOk = false ∧ channelSendOk = false)) →
      (on_reaction_add self event removeOk dmOk channelSendOk).loggedError = true) := by
  refine ⟨?_, ?_, ?_, ?_, ?_⟩
  · intro hbot
    simp [on_reaction_add, hbot]
  · intro hbot hmem
    simp [on_reaction_add, hbot, hmem]
  · intro hbot hmem hrem hdm
    simp [on_reaction_add, hbot, hmem, hrem, hdm]
  · intro hbot hmem hrem hdm hch
    simp [on_reaction_add, hbot, hmem, hrem, hdm, hch]
  · intro hbot hmem hfail
    rcases hfail with hrem | ⟨hdm, hch⟩
    · simp [on_reaction_add, hbot, hmem, hrem]
    · cases removeOk <;> simp [on_reaction_add, hbot, hmem, hdm, hch]

/-- Witness for C7: a non-bot 🇺🇦 reaction on the fresh state is removed;
with the DM undeliverable, the public notice with a 10-second expiry is
posted instead. -/
theorem on_reaction_add_spec_witness :
    on_reaction_add exState ⟨uaFlag, false⟩ true false true =
      ⟨⟨true, false, some 10⟩, false⟩ :=
  (on_reaction_add_spec exState ⟨uaFlag, false⟩ true false true).2.2.2.1
    rfl (by decide) rfl rfl rfl

/-- C9: `add_emoji` does not reject the empty glyph — adding it succeeds and
puts it into the effective set — and whenever the empty glyph is in the
effective set, `contains_banned_emoji` returns true for every text, the
empty text included. -/
theorem empty_glyph_matches_every_text (self : EmojiModerator) (text : List Char) :
    (([] : Glyph) ∉ self.banned_emojis → ∀ file : FileState,
      (add_emoji self file [] true).reply = some AddReply.added ∧
      ([] : Glyph) ∈ (add_emoji self file [] true).state.all_banned_emojis) ∧
    (([] : Glyph) ∈ self.all_banned_emojis →
      contains_banned_emoji self text = true) := by
  constructor
  · intro h file
    simp [add_emoji, h]
  · intro h
    rw [contains_banned_emoji]
    exact decide_eq_true ⟨[], h, (occursIn_iff [] text).mpr List.nil_infix⟩

/-- Witness for C9: adding the empty glyph on a fresh state reports success,
and on the resulting state the scanner flags the empty text. -/
theorem empty_glyph_matches_every_text_witness :
    ((add_emoji exState none [] true).reply = some AddReply.added ∧
      ([] : Glyph) ∈ (add_emoji exState none [] true).state.all_banned_emojis) ∧
    contains_banned_emoji emptyGlyphState [] = true :=
  ⟨(empty_glyph_matches_every_text exState []).1 (by decide) none,
   (empty_glyph_matches_every_text emptyGlyphState []).2 (by decide)⟩

/-- C10: `restore` overwrites the persisted file with the attachment's
content before validating it.  For any prior state and any attachment whose
filename ends in `.json` but whose content is not valid JSON, the persisted
file becomes that corrupt content, the custom list becomes empty, the
corruption diagnostic is printed, and the previous denylist state is not
preserved. -/
theorem restore_overwrites_before_validation (self : EmojiModerator)
    (file : FileState) (a : Attachment) (rest : List Attachment)
    (hname : List.isSuffixOf ".json".toList a.filename = true)
    (hcorrupt : a.content = FileData.corrupt) :
    restore self file (a :: rest) =
      ⟨⟨[], DEFAULT_COUNTRY_FLAGS.toFinset⟩, some FileData.corrupt,
        RestoreReply.restored, true⟩ := by
  have hname' : ['.', 'j', 's', 'o', 'n'] <:+ a.filename := by
    have := ( List.isSuffixOf_iff_suffix).mp hname
    simpa using this
  simp [restore, hcorrupt, load_banned_emojis, hname']

/-- Witness for C10: restoring a corrupt `.json` attachment over the state
that had 😈 in its custom list wipes the custom list and replaces the file. -/
theorem restore_overwrites_before_validation_witness :
    restore exAdd1.state exAdd1.file [corruptAttachment] =
      ⟨⟨[], DEFAULT_COUNTRY_FLAGS.toFinset⟩, some FileData.corrupt,
        RestoreReply.restored, true⟩ :=
  restore_overwrites_before_validation exAdd1.state exAdd1.file
    corruptAttachment [] (by decide) rfl

end DeniedBot
